import Mathlib

/-!
Shallow embedding of `src/olorenchemengine/external/SPGNN/main.py`.

The file embeds the orchestration core of the SPGNN wrapper: the feature
vocabulary and the atom/bond featurizers, the batched inference loop
(`predict` / `SPGNN._predict`), the training loop (`train` / `SPGNN._fit`),
the constructor's argument resolution (`SPGNN.__init__`), and the save/load
payload handling (`SPGNN._save` / `SPGNN._load`).

Python lists become Lean lists; tensors of shape (n, 1) become lists of
singleton rows; a raised exception becomes the `none` branch of `Option` or
the `error` branch of `Except`; torch's elementwise loss kernels and the
pretrained backbone's forward pass are external collaborators and are taken
as function parameters.
-/

namespace SPGNNSpec

/-! ### Feature vocabulary (`allowable_features`, main.py lines 26-55) -/

/-- RDKit chiral-type values that occur in `possible_chirality_list`
(`Chem.rdchem.ChiralType`); the vocabulary lists all four. -/
inductive ChiralType where
  | chiUnspecified
  | chiTetrahedralCW
  | chiTetrahedralCCW
  | chiOther
  deriving DecidableEq

/-- RDKit bond-type values (`Chem.rdchem.BondType`): the four members of
`possible_bonds` plus values such as UNSPECIFIED and QUADRUPLE that RDKit can
produce but the vocabulary omits. -/
inductive BondType where
  | btSingle
  | btDouble
  | btTriple
  | btAromatic
  | btUnspecified
  | btQuadruple
  | btDative
  deriving DecidableEq

/-- RDKit bond-direction values (`Chem.rdchem.BondDir`): the three members of
`possible_bond_dirs` plus values such as BEGINWEDGE that the vocabulary
omits. -/
inductive BondDir where
  | bdNone
  | bdEndUpright
  | bdEndDownright
  | bdBeginWedge
  | bdBeginDash
  deriving DecidableEq

/-- `allowable_features['possible_atomic_num_list'] = list(range(1, 119))`. -/
def possible_atomic_num_list : List Nat := List.range' 1 118

/-- `allowable_features['possible_chirality_list']`, in source order. -/
def possible_chirality_list : List ChiralType :=
  [ChiralType.chiUnspecified, ChiralType.chiTetrahedralCW,
   ChiralType.chiTetrahedralCCW, ChiralType.chiOther]

/-- `allowable_features['possible_bonds']`, in source order. -/
def possible_bonds : List BondType :=
  [BondType.btSingle, BondType.btDouble, BondType.btTriple, BondType.btAromatic]

/-- `allowable_features['possible_bond_dirs']`, in source order. -/
def possible_bond_dirs : List BondDir :=
  [BondDir.bdNone, BondDir.bdEndUpright, BondDir.bdEndDownright]

/-- Python's `list.index(a)`: position of the first occurrence of `a`, and a
raised exception (`none`) when `a` does not occur — there is no default. -/
def list_index {α : Type} [DecidableEq α] : List α → α → Option Nat
  | [], _ => none
  | x :: xs, a => if x = a then some 0 else (list_index xs a).map (fun i => i + 1)

/-! ### Atom and bond featurizers (`SPGNN_AF.convert`, `SPGNN_BF.convert`) -/

/-- The two properties of an RDKit atom that `SPGNN_AF.convert` reads:
`atom.GetAtomicNum()` and `atom.GetChiralTag()`. -/
structure Atom where
  atomicNum : Nat
  chiralTag : ChiralType

/-- The two properties of an RDKit bond that `SPGNN_BF.convert` reads:
`bond.GetBondType()` and `bond.GetBondDir()`. -/
structure Bond where
  bondType : BondType
  bondDir : BondDir

/-- `SPGNN_AF.convert` (main.py lines 62-67): the feature vector
`[index(atomic num), index(chiral tag)]`; `none` models the exception raised
by `list.index` when a property value is outside the vocabulary. -/
def SPGNN_AF_convert (atom : Atom) : Option (List Nat) := do
  let i ← list_index possible_atomic_num_list atom.atomicNum
  let j ← list_index possible_chirality_list atom.chiralTag
  pure [i, j]

/-- `SPGNN_BF.convert` (main.py lines 74-80): the feature vector
`[index(bond type), index(bond dir)]`. -/
def SPGNN_BF_convert (bond : Bond) : Option (List Nat) := do
  let i ← list_index possible_bonds bond.bondType
  let j ← list_index possible_bond_dirs bond.bondDir
  pure [i, j]

/-! ### Basic lemmas about `list_index` -/

theorem list_index_eq_none_iff {α : Type} [DecidableEq α] (l : List α) (a : α) :
    list_index l a = none ↔ a ∉ l := by
  induction l with
  | nil => simp [list_index]
  | cons x xs ih =>
    by_cases hx : x = a
    · subst hx
      simp [list_index]
    · simp [list_index, hx, Option.map_eq_none, ih, Ne.symm hx]

theorem list_index_range' (len s n : Nat) :
    list_index (List.range' s len) n =
      if s ≤ n ∧ n < s + len then some (n - s) else none := by
  induction len generalizing s with
  | zero =>
    have h : ¬ (s ≤ n ∧ n < s + 0) := by omega
    rw [if_neg h]
    rfl
  | succ k ih =>
    rw [List.range'_succ]
    by_cases hs : s = n
    · subst hs
      have h : s ≤ s ∧ s < s + (k + 1) := by omega
      simp [list_index, h]
    · rw [show list_index (s :: List.range' (s + 1) k) n
            = (list_index (List.range' (s + 1) k) n).map (fun i => i + 1) by
          simp [list_index, hs]]
      rw [ih (s + 1)]
      by_cases hcond : s + 1 ≤ n ∧ n < s + 1 + k
      · have hcond2 : s ≤ n ∧ n < s + (k + 1) := by omega
        simp [hcond, hcond2]
        omega
      · have hcond2 : ¬ (s ≤ n ∧ n < s + (k + 1)) := by omega
        simp [hcond, hcond2]

/-! ### Batched inference (`predict`, main.py lines 109-125, and
`SPGNN._predict`, lines 216-218) -/

/-- The batch stream built by `DataLoader(X, batch_size=bs, shuffle=False)`:
consecutive chunks of `X`, in input order, each of size `bs` except possibly
the last.  (`bs = 0` is rejected by the real loader; the definition treats it
like `bs = 1` so that it is total.) -/
def dl_chunks {α : Type} : Nat → List α → List (List α)
  | _, [] => []
  | bs, x :: xs =>
      (x :: List.take (bs - 1) xs) :: dl_chunks bs (List.drop (bs - 1) xs)
termination_by _ l => l.length
decreasing_by
  simp only [List.length_drop, List.length_cons]
  omega

/-- `torch.cat(ts, dim=0)`: row-wise concatenation; raises on an empty list
of tensors. -/
def torch_cat {β : Type} : List (List β) → Except String (List β)
  | [] => Except.error "expected a non-empty list of Tensors"
  | t :: ts => Except.ok (t :: ts).flatten

/-- `nn.Sigmoid()` applied to one scalar. -/
noncomputable def sigmoid (x : ℝ) : ℝ := 1 / (1 + Real.exp (-x))

/-- The per-batch forward pass `model(batch.x, ...)`: the backbone is an
external collaborator, abstracted as a per-molecule scalar head `f` (the
model is built with `num_tasks = 1`), so the prediction tensor for a batch is
one singleton row per molecule of the batch. -/
def model_forward {α : Type} (f : α → ℝ) (batch : List α) : List (List ℝ) :=
  batch.map (fun v => [f v])

/-- `predict(model, device, loader, setting)` (main.py lines 109-125):
collect per-batch prediction tensors in loader order, `torch.cat` them along
dim 0, apply `nn.Sigmoid()` elementwise iff `setting == "classification"`,
and flatten. -/
noncomputable def spgnn_predict_loop {α : Type} (setting : String) (f : α → ℝ)
    (batches : List (List α)) : Except String (List ℝ) :=
  match torch_cat (batches.map (model_forward f)) with
  | Except.error e => Except.error e
  | Except.ok catted =>
      let post :=
        if setting = "classification" then catted.map (List.map sigmoid)
        else catted
      Except.ok post.flatten

/-- `SPGNN._predict` (main.py lines 216-218): build the non-shuffled batch
stream and run the inference loop. -/
noncomputable def spgnn_predict {α : Type} (setting : String) (f : α → ℝ)
    (bs : Nat) (X : List α) : Except String (List ℝ) :=
  spgnn_predict_loop setting f (dl_chunks bs X)

theorem dl_chunks_flatten {α : Type} (bs : Nat) (l : List α) :
    (dl_chunks bs l).flatten = l := by
  induction bs, l using dl_chunks.induct with
  | case1 _ => simp [dl_chunks]
  | case2 bs x xs ih =>
    rw [dl_chunks]
    simp only [List.flatten_cons, ih, List.cons_append]
    rw [List.take_append_drop]

theorem dl_chunks_ne_nil {α : Type} (bs : Nat) (x : α) (xs : List α) :
    dl_chunks bs (x :: xs) ≠ [] := by
  rw [dl_chunks]
  exact List.cons_ne_nil _ _

theorem flatten_map_singleton {α β : Type} (g : α → β) (l : List α) :
    (l.map (fun v => [g v])).flatten = l.map g := by
  induction l with
  | nil => rfl
  | cons x xs ih => simp [ih]

/-- What the untransformed (pre-postprocessing) concatenation of batch
predictions works out to: one singleton row per input molecule, in input
order. -/
theorem cat_model_forward {α : Type} (f : α → ℝ) (bs : Nat) (X : List α)
    (hX : X ≠ []) :
    torch_cat ((dl_chunks bs X).map (model_forward f)) =
      Except.ok (X.map (fun v => [f v])) := by
  obtain ⟨x, xs, rfl⟩ := List.exists_cons_of_ne_nil hX
  obtain ⟨c, cs, hc⟩ :=
    List.exists_cons_of_ne_nil (dl_chunks_ne_nil bs x xs)
  have hjoin :
      ((dl_chunks bs (x :: xs)).map (List.map (fun v => [f v]))).flatten
        = (x :: xs).map (fun v => [f v]) := by
    rw [← List.map_flatten, dl_chunks_flatten]
  show torch_cat ((dl_chunks bs (x :: xs)).map (List.map (fun v => [f v])))
      = Except.ok ((x :: xs).map (fun v => [f v]))
  rw [hc, List.map_cons, torch_cat, ← List.map_cons, ← hc, hjoin]

/-! ### Tensors and the training-step loss (`train`, main.py lines 87-107) -/

/-- Torch dtypes that occur in `train`: predictions/labels are cast with
`.double()` / `.to(torch.float64)`. -/
inductive DType where
  | float32
  | float64
  deriving DecidableEq

/-- A torch tensor: a shape, a dtype, and the flattened numeric contents
(rationals stand in for the numeric values). -/
structure Tensor where
  shape : List Nat
  dtype : DType
  data : List ℚ
  deriving DecidableEq

/-- `t.view(shape)`: reinterpret the contents under a new shape; raises
(`none`) when the element counts disagree. -/
def tensor_view (t : Tensor) (shape : List Nat) : Option Tensor :=
  if t.data.length = shape.prod then
    some { shape := shape, dtype := t.dtype, data := t.data }
  else none

/-- `t.to(dtype)` / `t.double()`: dtype cast; the stored values are kept. -/
def tensor_to (t : Tensor) (dt : DType) : Tensor :=
  { t with dtype := dt }

/-- `nn.BCEWithLogitsLoss(reduction="none")(pred, y)`: the elementwise loss
kernel is torch's (an external collaborator), abstracted as `bce` applied to
the raw pre-sigmoid score and the label; `reduction="none"` keeps the full
loss matrix (shape of `pred`), performing no reduction. -/
def bce_with_logits_none (bce : ℚ → ℚ → ℚ) (pred y : Tensor) : Tensor :=
  { shape := pred.shape, dtype := pred.dtype,
    data := List.zipWith bce pred.data y.data }

/-- `torch.mean(t)`: the plain mean over all elements of the tensor. -/
def torch_mean (t : Tensor) : ℚ := t.data.sum / (t.data.length : ℚ)

/-- `batch.y.view(pred.shape).to(torch.float64)` (main.py line 97): the label
tensor as it enters the loss computation. -/
def train_label_tensor (y : Tensor) (predShape : List Nat) : Option Tensor :=
  (tensor_view y predShape).map (fun t => tensor_to t DType.float64)

/-- One batch's loss in `train` (main.py lines 88-104): the criterion is
`nn.BCEWithLogitsLoss(reduction="none")` iff `setting == "classification"`
and `nn.MSELoss()` (an already-reduced scalar, abstracted as `mse`)
otherwise; `loss_mat = criterion(pred.double(), y)` and
`loss = torch.mean(loss_mat)`. -/
def spgnn_batch_loss (setting : String) (bce : ℚ → ℚ → ℚ)
    (mse : Tensor → Tensor → ℚ) (pred yRaw : Tensor) : Option ℚ :=
  match train_label_tensor yRaw pred.shape with
  | none => none
  | some y =>
      if setting = "classification" then
        some (torch_mean (bce_with_logits_none bce (tensor_to pred DType.float64) y))
      else
        some (mse (tensor_to pred DType.float64) y)

/-! ### The fit loop (`SPGNN._fit`, main.py lines 211-214) -/

/-- The observable effects of fitting: the backbone parameters (abstract
type `P`), the number of `optimizer.step()` calls, and the number of batches
drawn from the batch stream. -/
structure FitTrace (P : Type) where
  params : P
  optSteps : Nat
  batchesIterated : Nat
  deriving DecidableEq

/-- One call of `train(model, device, loader, optimizer, setting)` (main.py
lines 87-107): each batch of the loader is iterated in order and each
iteration performs exactly one `optimizer.step()`; the parameter change of a
step is the external autograd/optimizer collaborator, abstracted as
`update`. -/
def spgnn_train_epoch {P B : Type} (update : P → B → P) (loader : List B)
    (t : FitTrace P) : FitTrace P :=
  loader.foldl
    (fun acc batch =>
      { params := update acc.params batch,
        optSteps := acc.optSteps + 1,
        batchesIterated := acc.batchesIterated + 1 }) t

/-- `SPGNN._fit` (main.py lines 211-214): `for epoch in range(self.epochs):
train(...)`. -/
def spgnn_fit {P B : Type} (epochs : Nat) (update : P → B → P)
    (loader : List B) (t : FitTrace P) : FitTrace P :=
  (List.range epochs).foldl (fun acc _ => spgnn_train_epoch update loader acc) t

/-! ### Constructor argument resolution (`SPGNN.__init__`, main.py
lines 153-204) -/

/-- Whether `needle` starts `hay` (used by the substring test below). -/
def leadsWith {α : Type} [DecidableEq α] : List α → List α → Bool
  | [], _ => true
  | _ :: _, [] => false
  | a :: as, b :: bs => a = b && leadsWith as bs

/-- Whether `needle` occurs contiguously inside `hay`. -/
def occursIn {α : Type} [DecidableEq α] : List α → List α → Bool
  | needle, [] => needle.isEmpty
  | needle, c :: t => leadsWith needle (c :: t) || occursIn needle t

/-- Python's `needle in hay` on strings: substring containment. -/
def py_str_contains (hay needle : String) : Bool :=
  occursIn needle.toList hay.toList

/-- The arguments `SPGNN.__init__` passes to `GNN_graphpred` (main.py
lines 181-187); `num_tasks` is the literal `1`. -/
structure GNNGraphpredArgs where
  num_layer : Nat
  emb_dim : Nat
  num_tasks : Nat
  gnn_type : String
  deriving DecidableEq

/-- The argument resolution in `SPGNN.__init__` (main.py lines 171-187):
`if "gat" in model_type: gnn_type = "gat"; emb_dim = 300`, then the backbone
is built from the resulting values. -/
def spgnn_init_args (model_type gnn_type : String) (num_layer emb_dim : Nat) :
    GNNGraphpredArgs :=
  let gnn_type2 := if py_str_contains model_type "gat" then "gat" else gnn_type
  let emb_dim2 := if py_str_contains model_type "gat" then 300 else emb_dim
  { num_layer := num_layer, emb_dim := emb_dim2, num_tasks := 1,
    gnn_type := gnn_type2 }

/-- `SPGNN.available_pretrained_models` (main.py lines 140-151). -/
def available_pretrained_models : List String :=
  ["contextpred",
   "edgepred",
   "infomax",
   "masking",
   "supervised_contextpred",
   "supervised_edgepred",
   "supervised_infomax",
   "supervised_masking",
   "supervised",
   "gat_supervised_contextpred",
   "gat_supervised",
   "gat_contextpred"]

/-- The artifact name `SPGNN.__init__` asks the download collaborator for
(main.py line 189): `download_public_file("SPGNN_saves/contextpred.pth")`.
The `model_type` argument is in scope at that line but the requested name is
the string literal. -/
def spgnn_checkpoint_request (model_type : String) : String :=
  "SPGNN_saves/contextpred.pth"

/-! ### Save / load (`SPGNN._save` lines 220-225, `SPGNN._load`
lines 227-229) -/

/-- The in-memory state split by ownership: `baseState` is whatever the
`BaseModel` base class owns (parameter logging, quantile transforms, ...),
`model` is the backbone object `self.model`. -/
structure SPGNNState (BS M : Type) where
  baseState : BS
  model : M

/-- A save payload: the base class's entries plus the `"save"` key, whose
value is the `torch.save` blob of the model when the key is present. -/
structure SaveDict (BD Blob : Type) where
  baseEntries : BD
  save : Option Blob

/-- `d["save"]` on a payload without the key raises a `KeyError`. -/
inductive PyLoadError where
  | keyError
  deriving DecidableEq

/-- `SPGNN._save` (main.py lines 220-225): take the base class's payload and
add the `"save"` key holding the serialized model blob.  `super()._save` and
`torch.save` are external collaborators, abstracted as `base_save` and
`torch_save`. -/
def spgnn_save {BS M BD Blob : Type} (base_save : BS → BD)
    (torch_save : M → Blob) (s : SPGNNState BS M) : SaveDict BD Blob :=
  { baseEntries := base_save s.baseState, save := some (torch_save s.model) }

/-- `SPGNN._load` (main.py lines 227-229): first `super()._load(d)` runs,
then `self.model = torch.load(io.BytesIO(d["save"]))`.  Modelled from the
spec: `BaseModel._load` is not under `src/`; per the spec the base class owns
only the save/load scaffolding state (parameter logging, quantile
transforms), so it is abstracted as `base_load` acting on the `baseState`
field and never on `self.model`.  The result is the state after the call
together with the raised error, if any: a payload without the `"save"` key
raises `KeyError` at `d["save"]`, after the base state was restored but
before `self.model` is touched. -/
def spgnn_load {BS M BD Blob : Type} (base_load : BS → BD → BS)
    (torch_load : Blob → M) (s : SPGNNState BS M) (d : SaveDict BD Blob) :
    SPGNNState BS M × Option PyLoadError :=
  let s1 : SPGNNState BS M :=
    { s with baseState := base_load s.baseState d.baseEntries }
  match d.save with
  | none => (s1, some PyLoadError.keyError)
  | some b => ({ s1 with model := torch_load b }, none)

/-! ### Helper lemmas shared by the claim theorems -/

/-- The inference loop on any empty input: the batch stream is empty, so
`torch.cat` receives the empty list and raises. -/
theorem spgnn_predict_nil {α : Type} (setting : String) (f : α → ℝ) (bs : Nat) :
    spgnn_predict setting f bs ([] : List α) =
      Except.error "expected a non-empty list of Tensors" := by
  simp [spgnn_predict, spgnn_predict_loop, dl_chunks, torch_cat]

/-- The inference loop on any non-empty input: one output per input
molecule, in input order, sigmoided exactly when the setting is
classification. -/
theorem spgnn_predict_eq {α : Type} (setting : String) (f : α → ℝ)
    (bs : Nat) (X : List α) (hX : X ≠ []) :
    spgnn_predict setting f bs X =
      Except.ok (if setting = "classification"
        then (X.map f).map sigmoid else X.map f) := by
  unfold spgnn_predict spgnn_predict_loop
  rw [cat_model_forward f bs X hX]
  show Except.ok (if setting = "classification"
      then (X.map (fun v => [f v])).map (List.map sigmoid)
      else X.map (fun v => [f v])).flatten
    = Except.ok (if setting = "classification"
      then (X.map f).map sigmoid else X.map f)
  by_cases hset : setting = "classification"
  · rw [if_pos hset, if_pos hset, List.map_map]
    rw [show (List.map sigmoid ∘ fun v => [f v])
          = fun v => [sigmoid (f v)] from rfl]
    rw [flatten_map_singleton (fun v => sigmoid (f v)) X, List.map_map]
    rfl
  · rw [if_neg hset, if_neg hset, flatten_map_singleton f X]

theorem sigmoid_nonneg (x : ℝ) : 0 ≤ sigmoid x := by
  unfold sigmoid
  positivity

theorem sigmoid_le_one (x : ℝ) : sigmoid x ≤ 1 := by
  have h : 0 < 1 + Real.exp (-x) := by positivity
  unfold sigmoid
  rw [div_le_one h]
  linarith [Real.exp_pos (-x)]

/-! ### The claims -/

/-- Claim C1: the claim says the loaded checkpoint is a function of
`model_type`, matching it; the code requests the fixed artifact
`SPGNN_saves/contextpred.pth` for every `model_type`, including
`"gat_supervised"`, which is in the advertised closed set and for which the
constructor builds a GAT backbone. -/
theorem claim_C1_checkpoint_constant :
    "gat_supervised" ∈ available_pretrained_models ∧
    spgnn_checkpoint_request "gat_supervised" = "SPGNN_saves/contextpred.pth" ∧
    spgnn_checkpoint_request "gat_supervised" ≠ "SPGNN_saves/gat_supervised.pth" ∧
    ∀ model_type : String,
      spgnn_checkpoint_request model_type = spgnn_checkpoint_request "contextpred" :=
  ⟨by decide, rfl, by decide, fun _ => rfl⟩

/-- Claim C2: for every non-empty molecule list and every (positive) batch
size, predict succeeds with one output per input molecule, `output[i]` being
the (post-processed) score of the i-th input molecule — batches are taken in
order, concatenated in batch-iteration order and flattened — and the output
length equals the input length. -/
theorem claim_C2_predict_order {α : Type} (setting : String) (f : α → ℝ)
    (bs : Nat) (X : List α) (hbs : 0 < bs) (hX : X ≠ []) :
    spgnn_predict setting f bs X =
      Except.ok (X.map (fun v =>
        if setting = "classification" then sigmoid (f v) else f v)) ∧
    (X.map (fun v =>
      if setting = "classification" then sigmoid (f v) else f v)).length
        = X.length := by
  refine ⟨?_, by simp⟩
  rw [spgnn_predict_eq setting f bs X hX]
  by_cases hset : setting = "classification"
  · simp [hset, List.map_map]
  · simp [hset]

theorem claim_C2_witness :
    0 < 2 ∧ ([0, 1, 2] : List ℝ) ≠ [] ∧
    (spgnn_predict "regression" (fun v : ℝ => v + 1) 2 [0, 1, 2] =
      Except.ok (([0, 1, 2] : List ℝ).map (fun v =>
        if "regression" = "classification" then sigmoid (v + 1) else v + 1)) ∧
    (([0, 1, 2] : List ℝ).map (fun v =>
      if "regression" = "classification" then sigmoid (v + 1) else v + 1)).length
        = ([0, 1, 2] : List ℝ).length) :=
  ⟨by norm_num, by simp,
    claim_C2_predict_order "regression" (fun v : ℝ => v + 1) 2 [0, 1, 2]
      (by norm_num) (by simp)⟩

/-- Claim C3 (counterexample): predict on the empty molecule list does not
return an empty prediction array; the loop collects zero per-batch tensors
and `torch.cat` of the empty list raises. -/
theorem claim_C3_counterexample :
    spgnn_predict "classification" (fun v : ℝ => v) 32 ([] : List ℝ) =
      Except.error "expected a non-empty list of Tensors" :=
  spgnn_predict_nil "classification" (fun v : ℝ => v) 32

/-- Claim C3 (amended): calling predict with an empty molecule list raises
an error (the concatenation of the empty list of per-batch prediction
tensors fails); no empty prediction array is returned. -/
theorem claim_C3_amended_raises {α : Type} (setting : String) (f : α → ℝ)
    (bs : Nat) :
    spgnn_predict setting f bs ([] : List α) =
      Except.error "expected a non-empty list of Tensors" :=
  spgnn_predict_nil setting f bs

/-- Claim C4: whenever a property value of an atom (or bond) is absent from
the corresponding vocabulary category, the featurizer raises — the lookup
fails and no feature vector (no fallback bucket, no default) is returned. -/
theorem claim_C4_no_fallback :
    (∀ atom : Atom,
        atom.atomicNum ∉ possible_atomic_num_list ∨
          atom.chiralTag ∉ possible_chirality_list →
        SPGNN_AF_convert atom = none) ∧
    (∀ bond : Bond,
        bond.bondType ∉ possible_bonds ∨
          bond.bondDir ∉ possible_bond_dirs →
        SPGNN_BF_convert bond = none) := by
  constructor
  · intro atom h
    rcases h with h | h
    · have hn := (list_index_eq_none_iff possible_atomic_num_list atom.atomicNum).mpr h
      simp [SPGNN_AF_convert, hn]
    · have hn := (list_index_eq_none_iff possible_chirality_list atom.chiralTag).mpr h
      cases hA : list_index possible_atomic_num_list atom.atomicNum <;>
        simp [SPGNN_AF_convert, hA, hn]
  · intro bond h
    rcases h with h | h
    · have hn := (list_index_eq_none_iff possible_bonds bond.bondType).mpr h
      simp [SPGNN_BF_convert, hn]
    · have hn := (list_index_eq_none_iff possible_bond_dirs bond.bondDir).mpr h
      cases hB : list_index possible_bonds bond.bondType <;>
        simp [SPGNN_BF_convert, hB, hn]

theorem claim_C4_witness :
    ((0 : Nat) ∉ possible_atomic_num_list ∨
      ChiralType.chiUnspecified ∉ possible_chirality_list) ∧
    SPGNN_AF_convert
      { atomicNum := 0, chiralTag := ChiralType.chiUnspecified } = none ∧
    (BondType.btQuadruple ∉ possible_bonds ∨
      BondDir.bdNone ∉ possible_bond_dirs) ∧
    SPGNN_BF_convert
      { bondType := BondType.btQuadruple, bondDir := BondDir.bdNone } = none :=
  ⟨Or.inl (by decide),
   claim_C4_no_fallback.1 _ (Or.inl (by decide)),
   Or.inl (by decide),
   claim_C4_no_fallback.2 _ (Or.inl (by decide))⟩

/-- Claim C5: a `"gat"` substring in `model_type` forces the convolution
variant to `"gat"` and the embedding width to 300, whatever `gnn_type` and
embedding width the caller supplied. -/
theorem claim_C5_gat_override (model_type gnn_type : String)
    (num_layer emb_dim : Nat)
    (h : py_str_contains model_type "gat" = true) :
    (spgnn_init_args model_type gnn_type num_layer emb_dim).gnn_type = "gat" ∧
    (spgnn_init_args model_type gnn_type num_layer emb_dim).emb_dim = 300 := by
  constructor <;> simp [spgnn_init_args, h]

theorem claim_C5_witness :
    py_str_contains "gat_contextpred" "gat" = true ∧
    ((spgnn_init_args "gat_contextpred" "gin" 5 64).gnn_type = "gat" ∧
     (spgnn_init_args "gat_contextpred" "gin" 5 64).emb_dim = 300) :=
  ⟨by decide, claim_C5_gat_override "gat_contextpred" "gin" 5 64 (by decide)⟩

/-- Claim C6: fitting with `epochs = 0` performs zero optimizer steps,
never iterates the batch stream, and leaves the parameters bit-identical. -/
theorem claim_C6_fit_zero_epochs {P B : Type} (update : P → B → P)
    (loader : List B) (t : FitTrace P) :
    (spgnn_fit 0 update loader t).params = t.params ∧
    (spgnn_fit 0 update loader t).optSteps = t.optSteps ∧
    (spgnn_fit 0 update loader t).batchesIterated = t.batchesIterated :=
  ⟨rfl, rfl, rfl⟩

/-- Claim C7: with the classification setting, the per-batch loss is the
plain mean, taken after the loss computation, of the elementwise
(unreduced) binary cross-entropy of the raw scores against the labels, and
the label tensor entering the loss has been reshaped to the prediction's
shape and cast to double precision. -/
theorem claim_C7_classification_loss (bce : ℚ → ℚ → ℚ)
    (mse : Tensor → Tensor → ℚ) (pred yRaw : Tensor)
    (hy : yRaw.data.length = pred.shape.prod) :
    ∃ y, train_label_tensor yRaw pred.shape = some y ∧
      y.dtype = DType.float64 ∧
      y.shape = pred.shape ∧
      y.data = yRaw.data ∧
      spgnn_batch_loss "classification" bce mse pred yRaw =
        some ((List.zipWith bce pred.data yRaw.data).sum /
          ((List.zipWith bce pred.data yRaw.data).length : ℚ)) := by
  have hv : tensor_view yRaw pred.shape =
      some { shape := pred.shape, dtype := yRaw.dtype, data := yRaw.data } := by
    simp [tensor_view, hy]
  refine ⟨{ shape := pred.shape, dtype := DType.float64, data := yRaw.data },
    ?_, rfl, rfl, rfl, ?_⟩
  · simp [train_label_tensor, hv, tensor_to]
  · simp [spgnn_batch_loss, train_label_tensor, hv, tensor_to,
      bce_with_logits_none, torch_mean]

theorem claim_C7_witness :
    (Tensor.mk [2] DType.float32 [1, 0]).data.length =
      (Tensor.mk [2, 1] DType.float32 [3, 5]).shape.prod ∧
    ∃ y, train_label_tensor (Tensor.mk [2] DType.float32 [1, 0])
          (Tensor.mk [2, 1] DType.float32 [3, 5]).shape = some y ∧
      y.dtype = DType.float64 ∧
      y.shape = (Tensor.mk [2, 1] DType.float32 [3, 5]).shape ∧
      y.data = (Tensor.mk [2] DType.float32 [1, 0]).data ∧
      spgnn_batch_loss "classification" (fun a b => a * b) (fun _ _ => 0)
          (Tensor.mk [2, 1] DType.float32 [3, 5])
          (Tensor.mk [2] DType.float32 [1, 0]) =
        some ((List.zipWith (fun a b => a * b)
            (Tensor.mk [2, 1] DType.float32 [3, 5]).data
            (Tensor.mk [2] DType.float32 [1, 0]).data).sum /
          ((List.zipWith (fun a b => a * b)
            (Tensor.mk [2, 1] DType.float32 [3, 5]).data
            (Tensor.mk [2] DType.float32 [1, 0]).data).length : ℚ)) :=
  ⟨by decide,
   claim_C7_classification_loss (fun a b => a * b) (fun _ _ => 0)
     (Tensor.mk [2, 1] DType.float32 [3, 5])
     (Tensor.mk [2] DType.float32 [1, 0]) (by decide)⟩

/-- Claim C8: with the classification setting every returned prediction lies
in [0,1] (the logistic squashing is applied elementwise after
concatenation); with the regression setting no transform is applied (the raw
scores are returned) and the outputs are unbounded. -/
theorem claim_C8_output_bounds :
    (∀ (α : Type) (f : α → ℝ) (bs : Nat) (X : List α) (ys : List ℝ),
        spgnn_predict "classification" f bs X = Except.ok ys →
        ∀ y ∈ ys, 0 ≤ y ∧ y ≤ 1) ∧
    (∀ (α : Type) (f : α → ℝ) (bs : Nat) (X : List α),
        X ≠ [] →
        spgnn_predict "regression" f bs X = Except.ok (X.map f)) ∧
    (∀ B : ℝ, ∃ (f : Unit → ℝ) (ys : List ℝ),
        spgnn_predict "regression" f 1 [()] = Except.ok ys ∧
        ∃ y ∈ ys, B < y) := by
  refine ⟨?_, ?_, ?_⟩
  · intro α f bs X ys h y hy
    rcases eq_or_ne X [] with hX | hX
    · rw [hX, spgnn_predict_nil] at h
      exact absurd h (by simp)
    · rw [spgnn_predict_eq "classification" f bs X hX, if_pos rfl] at h
      have hys : (X.map f).map sigmoid = ys := by
        simpa using h
      rw [← hys] at hy
      obtain ⟨x, _, rfl⟩ := List.mem_map.mp hy
      exact ⟨sigmoid_nonneg x, sigmoid_le_one x⟩
  · intro α f bs X hX
    rw [spgnn_predict_eq "regression" f bs X hX, if_neg (by decide)]
  · intro B
    refine ⟨fun _ => B + 1, [B + 1], ?_, B + 1, by simp, by linarith⟩
    rw [spgnn_predict_eq "regression" (fun _ => B + 1) 1 [()] (by simp),
      if_neg (by decide)]
    rfl

theorem claim_C8_witness :
    spgnn_predict "classification" (fun _ : Unit => (0 : ℝ)) 1 [()] =
      Except.ok [sigmoid 0] ∧
    (0 ≤ sigmoid 0 ∧ sigmoid 0 ≤ 1) := by
  have h : spgnn_predict "classification" (fun _ : Unit => (0 : ℝ)) 1 [()] =
      Except.ok [sigmoid 0] := by
    rw [spgnn_predict_eq "classification" (fun _ : Unit => (0 : ℝ)) 1 [()]
      (by simp), if_pos rfl]
    rfl
  exact ⟨h, claim_C8_output_bounds.1 Unit (fun _ => (0 : ℝ)) 1 [()]
    [sigmoid 0] h (sigmoid 0) (by simp)⟩

/-- Claim C9: loading a payload without the `"save"` blob key raises — the
error reaches the caller and the in-memory model is not (even partially)
replaced; loading a payload with the key overwrites the in-memory model with
the deserialized blob. -/
theorem claim_C9_load (BS M BD Blob : Type) (base_load : BS → BD → BS)
    (torch_load : Blob → M) (s : SPGNNState BS M) (d : SaveDict BD Blob) :
    (d.save = none →
      (spgnn_load base_load torch_load s d).2 = some PyLoadError.keyError ∧
      (spgnn_load base_load torch_load s d).1.model = s.model) ∧
    (∀ b, d.save = some b →
      spgnn_load base_load torch_load s d =
        ({ baseState := base_load s.baseState d.baseEntries,
           model := torch_load b }, none)) := by
  constructor
  · intro h
    constructor <;> simp [spgnn_load, h]
  · intro b h
    simp [spgnn_load, h]

theorem claim_C9_witness :
    ((SaveDict.mk () none : SaveDict Unit Nat).save = none) ∧
    ((spgnn_load (fun b _ => b) (fun n : Nat => n)
        (SPGNNState.mk () 7 : SPGNNState Unit Nat)
        (SaveDict.mk () none)).2 = some PyLoadError.keyError ∧
     (spgnn_load (fun b _ => b) (fun n : Nat => n)
        (SPGNNState.mk () 7 : SPGNNState Unit Nat)
        (SaveDict.mk () none)).1.model =
       (SPGNNState.mk () 7 : SPGNNState Unit Nat).model) :=
  ⟨rfl, (claim_C9_load Unit Nat Unit Nat (fun b _ => b) (fun n => n)
    (SPGNNState.mk () 7) (SaveDict.mk () none)).1 rfl⟩

/-- Claim C10: for every atomic number n in 1..118 the first component of
the atom feature vector is n - 1 (the vocabulary is the ordered sequence
1..118), and the vector is a function of the atomic number and the chirality
tag alone. -/
theorem claim_C10_first_component (n : Nat) (tag : ChiralType)
    (h1 : 1 ≤ n) (h2 : n ≤ 118) :
    ∃ j, SPGNN_AF_convert { atomicNum := n, chiralTag := tag } =
      some [n - 1, j] := by
  have hn : list_index possible_atomic_num_list n = some (n - 1) := by
    have h := list_index_range' 118 1 n
    have hcond : 1 ≤ n ∧ n < 1 + 118 := by omega
    simp only [possible_atomic_num_list]
    rw [h, if_pos hcond]
  obtain ⟨j, hj⟩ : ∃ j, list_index possible_chirality_list tag = some j := by
    cases tag
    · exact ⟨0, by decide⟩
    · exact ⟨1, by decide⟩
    · exact ⟨2, by decide⟩
    · exact ⟨3, by decide⟩
  exact ⟨j, by simp [SPGNN_AF_convert, hn, hj]⟩

theorem claim_C10_witness :
    (1 ≤ 6 ∧ 6 ≤ 118) ∧
    ∃ j, SPGNN_AF_convert
        { atomicNum := 6, chiralTag := ChiralType.chiTetrahedralCW } =
      some [5, j] :=
  ⟨by decide,
   claim_C10_first_component 6 ChiralType.chiTetrahedralCW (by decide) (by decide)⟩

end SPGNNSpec
